import Mathlib

/-!
Verification development for a micro-benchmark harness comparing a
CRYSTALS-Dilithium (level 3) signature backend against an RSA backend.
The definitions below are a shallow embedding of the C++ sources:

* `Benchmark.run` / `calculateStdDev`  — Benchmark.cpp (the timing loop is
  modelled by the list of per-iteration durations, in whole microseconds,
  exactly what `duration_cast<microseconds>` hands to the loop body);
* `DilithiumWrapper.*`                 — Dilithiumwrapper.cpp;
* `RSABenchmark.*`                     — RSABenchmark.cpp;
* `detailedAnalysisNotes`              — the detailed-analysis block of main.cpp.

Latency samples are exact rationals (the doubles of the source carry exact
values here); the standard deviation is the real square root of a rational.
-/

/-- `duration.count() / 1000.0` of Benchmark.cpp line 19: a whole number of
microseconds recorded as (floating-point) milliseconds. -/
def toMillis (d : ℕ) : ℚ := (d : ℚ) / 1000

/-- The `times` vector built by the measurement loop of `Benchmark::run`,
given the per-iteration durations in microseconds. -/
def sampleTimes (durations : List ℕ) : List ℚ := durations.map toMillis

/-- `std::accumulate(times.begin(), times.end(), 0.0)`. -/
def sumList (xs : List ℚ) : ℚ := xs.foldl (· + ·) 0

/-- `*std::min_element(times.begin(), times.end())` (0 for the empty list,
where the C++ would be undefined; all claims assume at least one sample). -/
def listMin : List ℚ → ℚ
  | [] => 0
  | x :: xs => xs.foldl min x

/-- `*std::max_element(times.begin(), times.end())`. -/
def listMax : List ℚ → ℚ
  | [] => 0
  | x :: xs => xs.foldl max x

/-- The `sumSquaredDiff` accumulation loop of `Benchmark::calculateStdDev`. -/
def sumSquaredDiff (values : List ℚ) (mean : ℚ) : ℚ :=
  values.foldl (fun acc v => acc + (v - mean) * (v - mean)) 0

/-- `Benchmark::calculateStdDev`: `sqrt(sumSquaredDiff / values.size())`. -/
noncomputable def calculateStdDev (values : List ℚ) (mean : ℚ) : ℝ :=
  Real.sqrt ((sumSquaredDiff values mean / (values.length : ℚ) : ℚ) : ℝ)

/-- `Benchmark::Result` (Benchmark.hpp). -/
structure Benchmark.Result where
  averageTime : ℚ
  minTime : ℚ
  maxTime : ℚ
  stdDev : ℝ
  iterations : ℕ

/-- `Benchmark::run`: the statistics it computes from the recorded `times`
vector.  The loop records exactly one sample per iteration, so the list of
microsecond durations stands for the pair (op, iterations); its length is the
iteration count. -/
noncomputable def Benchmark.run (durations : List ℕ) : Benchmark.Result :=
  { averageTime := sumList (sampleTimes durations) / ((sampleTimes durations).length : ℚ)
  , minTime := listMin (sampleTimes durations)
  , maxTime := listMax (sampleTimes durations)
  , stdDev := calculateStdDev (sampleTimes durations)
      (sumList (sampleTimes durations) / ((sampleTimes durations).length : ℚ))
  , iterations := durations.length }

/- Helper lemmas about the fold-based statistics. -/

lemma foldl_add_eq (l : List ℚ) : ∀ a : ℚ, l.foldl (· + ·) a = a + l.sum := by
  induction l with
  | nil => intro a; simp
  | cons y ys ih => intro a; rw [List.foldl_cons, ih, List.sum_cons]; ring

lemma sumList_eq_sum (xs : List ℚ) : sumList xs = xs.sum := by
  rw [sumList, foldl_add_eq, zero_add]

lemma foldl_sq_eq (μ : ℚ) (l : List ℚ) :
    ∀ a : ℚ, l.foldl (fun acc v => acc + (v - μ) * (v - μ)) a
      = a + (l.map (fun v => (v - μ) * (v - μ))).sum := by
  induction l with
  | nil => intro a; simp
  | cons y ys ih =>
    intro a
    rw [List.foldl_cons, ih, List.map_cons, List.sum_cons]; ring

lemma sumSquaredDiff_eq (values : List ℚ) (μ : ℚ) :
    sumSquaredDiff values μ = (values.map (fun v => (v - μ) ^ 2)).sum := by
  rw [sumSquaredDiff, foldl_sq_eq, zero_add]
  congr 1
  exact List.map_congr_left fun x _ => (pow_two (x - μ)).symm

lemma foldl_min_le_init (l : List ℚ) : ∀ a : ℚ, l.foldl min a ≤ a := by
  induction l with
  | nil => intro a; simp
  | cons y ys ih =>
    intro a
    rw [List.foldl_cons]
    exact le_trans (ih (min a y)) (min_le_left a y)

lemma foldl_min_le_mem (l : List ℚ) : ∀ (a x : ℚ), x ∈ l → l.foldl min a ≤ x := by
  induction l with
  | nil => intro a x hx; exact absurd hx (List.not_mem_nil x)
  | cons y ys ih =>
    intro a x hx
    rw [List.foldl_cons]
    rcases List.mem_cons.mp hx with h | h
    · subst h
      exact le_trans (foldl_min_le_init ys (min a x)) (min_le_right a x)
    · exact ih (min a y) x h

lemma init_le_foldl_max (l : List ℚ) : ∀ a : ℚ, a ≤ l.foldl max a := by
  induction l with
  | nil => intro a; simp
  | cons y ys ih =>
    intro a
    rw [List.foldl_cons]
    exact le_trans (le_max_left a y) (ih (max a y))

lemma mem_le_foldl_max (l : List ℚ) : ∀ (a x : ℚ), x ∈ l → x ≤ l.foldl max a := by
  induction l with
  | nil => intro a x hx; exact absurd hx (List.not_mem_nil x)
  | cons y ys ih =>
    intro a x hx
    rw [List.foldl_cons]
    rcases List.mem_cons.mp hx with h | h
    · subst h
      exact le_trans (le_max_right a x) (init_le_foldl_max ys (max a x))
    · exact ih (max a y) x h

lemma listMin_le_of_mem {xs : List ℚ} {x : ℚ} (hx : x ∈ xs) : listMin xs ≤ x := by
  cases xs with
  | nil => exact absurd hx (List.not_mem_nil x)
  | cons y ys =>
    rcases List.mem_cons.mp hx with h | h
    · subst h; exact foldl_min_le_init ys x
    · exact foldl_min_le_mem ys y x h

lemma le_listMax_of_mem {xs : List ℚ} {x : ℚ} (hx : x ∈ xs) : x ≤ listMax xs := by
  cases xs with
  | nil => exact absurd hx (List.not_mem_nil x)
  | cons y ys =>
    rcases List.mem_cons.mp hx with h | h
    · subst h; exact init_le_foldl_max ys x
    · exact mem_le_foldl_max ys y x h

lemma listMin_le_mean {xs : List ℚ} (h : xs ≠ []) :
    listMin xs ≤ sumList xs / (xs.length : ℚ) := by
  have hpos : (0 : ℚ) < (xs.length : ℚ) := by
    exact_mod_cast List.length_pos.mpr h
  rw [le_div_iff₀ hpos, sumList_eq_sum]
  have hs := List.card_nsmul_le_sum xs (listMin xs) fun x hx => listMin_le_of_mem hx
  rw [nsmul_eq_mul] at hs
  linarith [hs]

lemma mean_le_listMax {xs : List ℚ} (h : xs ≠ []) :
    sumList xs / (xs.length : ℚ) ≤ listMax xs := by
  have hpos : (0 : ℚ) < (xs.length : ℚ) := by
    exact_mod_cast List.length_pos.mpr h
  rw [div_le_iff₀ hpos, sumList_eq_sum]
  have hs := List.sum_le_card_nsmul xs (listMax xs) fun x hx => le_listMax_of_mem hx
  rw [nsmul_eq_mul] at hs
  linarith [hs]

lemma sampleTimes_length (durations : List ℕ) :
    (sampleTimes durations).length = durations.length := by
  simp [sampleTimes]

lemma sampleTimes_demo : sampleTimes [1000, 2000, 3000] = [1, 2, 3] := by
  simp [sampleTimes, toMillis]; norm_num

lemma run_demo_avg : (Benchmark.run [1000, 2000, 3000]).averageTime = 2 := by
  simp only [Benchmark.run, sampleTimes_demo]
  norm_num [sumList, List.foldl]

lemma run_demo_min : (Benchmark.run [1000, 2000, 3000]).minTime = 1 := by
  simp only [Benchmark.run, sampleTimes_demo]
  norm_num [listMin, List.foldl]

lemma run_demo_max : (Benchmark.run [1000, 2000, 3000]).maxTime = 3 := by
  simp only [Benchmark.run, sampleTimes_demo]
  norm_num [listMax, List.foldl]

lemma run_demo_std : (Benchmark.run [1000, 2000, 3000]).stdDev = Real.sqrt (2 / 3) := by
  simp only [Benchmark.run, sampleTimes_demo, calculateStdDev]
  have h : sumSquaredDiff [1, 2, 3]
      (sumList [1, 2, 3] / (([1, 2, 3] : List ℚ).length : ℚ))
      / (([1, 2, 3] : List ℚ).length : ℚ) = 2 / 3 := by
    norm_num [sumList, sumSquaredDiff, List.foldl]
  rw [h]
  norm_num

/-! ## Dilithium wrapper (Dilithiumwrapper.cpp)

Byte buffers are lists of byte values.  The external pq-crystals primitives
are out of scope (spec §1): the wrapper's operations are parametrised by the
primitive's outcome, and every branch of the wrapper itself is translated. -/

/-- `DilithiumWrapper::PUBLIC_KEY_BYTES`. -/
def DilithiumWrapper.PUBLIC_KEY_BYTES : ℕ := 1952

/-- `DilithiumWrapper::SECRET_KEY_BYTES`. -/
def DilithiumWrapper.SECRET_KEY_BYTES : ℕ := 4032

/-- `DilithiumWrapper::SIGNATURE_BYTES`. -/
def DilithiumWrapper.SIGNATURE_BYTES : ℕ := 3309

/-- The member state of a `DilithiumWrapper` object. -/
structure DilithiumState where
  publicKey : List ℕ
  secretKey : List ℕ
  keysGenerated : Bool
deriving DecidableEq

/-- The constructor: both buffers zero-filled at their fixed sizes,
`keysGenerated_ = false`. -/
def DilithiumWrapper.init : DilithiumState :=
  { publicKey := List.replicate DilithiumWrapper.PUBLIC_KEY_BYTES 0
  , secretKey := List.replicate DilithiumWrapper.SECRET_KEY_BYTES 0
  , keysGenerated := false }

/-- `DilithiumWrapper::hasKeys`. -/
def DilithiumWrapper.hasKeys (s : DilithiumState) : Bool := s.keysGenerated

/-- `DilithiumWrapper::generateKeys`.  The reference `keypair` routine writes
a fresh pair `(newPk, newSk)` into the two buffers in place and returns a
status; `ret` is true when that status is 0.  Only on success is
`keysGenerated_` set. -/
def DilithiumWrapper.generateKeys (ret : Bool) (newPk newSk : List ℕ)
    (s : DilithiumState) : Bool × DilithiumState :=
  if ret then
    (true, { s with publicKey := newPk, secretKey := newSk, keysGenerated := true })
  else
    (false, { s with publicKey := newPk, secretKey := newSk })

/-- `DilithiumWrapper::sign`.  `primSig sk msg` is the reference signing
routine: `some` of the (already length-truncated) signature bytes on status 0,
`none` otherwise. -/
def DilithiumWrapper.sign (primSig : List ℕ → List ℕ → Option (List ℕ))
    (s : DilithiumState) (message : List ℕ) : List ℕ :=
  if s.keysGenerated = false then []
  else
    match primSig s.secretKey message with
    | none => []
    | some sig => sig

/-- `DilithiumWrapper::verify`.  `primVer pk msg sig` is true when the
reference verification routine returns 0. -/
def DilithiumWrapper.verify (primVer : List ℕ → List ℕ → List ℕ → Bool)
    (s : DilithiumState) (message sig : List ℕ) : Bool :=
  if s.keysGenerated = false then false
  else primVer s.publicKey message sig

/-- `DilithiumWrapper::setPublicKey`. -/
def DilithiumWrapper.setPublicKey (s : DilithiumState) (pubkey : List ℕ) :
    Bool × DilithiumState :=
  if pubkey.length ≠ DilithiumWrapper.PUBLIC_KEY_BYTES then (false, s)
  else (true, { s with publicKey := pubkey })

/-- `DilithiumWrapper::setSecretKey`. -/
def DilithiumWrapper.setSecretKey (s : DilithiumState) (seckey : List ℕ) :
    Bool × DilithiumState :=
  if seckey.length ≠ DilithiumWrapper.SECRET_KEY_BYTES then (false, s)
  else (true, { s with secretKey := seckey, keysGenerated := true })

/-! Write traces over the two key buffers, to reason about which operations
overwrite or zero key material. -/

/-- One write of a whole key buffer. -/
inductive KeyWrite
  | pk (bytes : List ℕ)
  | sk (bytes : List ℕ)
deriving DecidableEq

/-- The buffer writes performed by `DilithiumWrapper::generateKeys`: the
`keypair` routine fills the public and then the secret buffer with the new
pair.  No other write occurs in that function. -/
def DilithiumWrapper.generateKeysWrites (newPk newSk : List ℕ) : List KeyWrite :=
  [KeyWrite.pk newPk, KeyWrite.sk newSk]

/-- The buffer writes performed by the destructor: `secureWipe` stores a zero
byte over every position of the secret buffer. -/
def DilithiumWrapper.destructorWrites (s : DilithiumState) : List KeyWrite :=
  [KeyWrite.sk (List.replicate s.secretKey.length 0)]

/-- A write trace zeroes a secret buffer of length `skLen` iff it contains a
write of `skLen` zero bytes over the secret buffer. -/
def wipesSecret (writes : List KeyWrite) (skLen : ℕ) : Prop :=
  KeyWrite.sk (List.replicate skLen 0) ∈ writes

instance (writes : List KeyWrite) (skLen : ℕ) : Decidable (wipesSecret writes skLen) := by
  unfold wipesSecret; infer_instance

/-! ## RSA backend (RSABenchmark.cpp)

The OpenSSL handles are modelled by whether they are non-null; the external
keygen / signing / verification primitives are parametrised. -/

/-- The member state of an `RSABenchmark` object. -/
structure RSAState where
  keySize : ℕ
  pkey : Bool
  signCtx : Bool
  verifyCtx : Bool
deriving DecidableEq

/-- The constructor `RSABenchmark(keySize)`: all handles null. -/
def RSABenchmark.init (keySize : ℕ) : RSAState :=
  { keySize := keySize, pkey := false, signCtx := false, verifyCtx := false }

/-- `RSABenchmark::hasKeys` (`pkey_ != nullptr`). -/
def RSABenchmark.hasKeys (s : RSAState) : Bool := s.pkey

/-- `RSABenchmark::cleanup`: frees and nulls the contexts and the keypair. -/
def RSABenchmark.cleanup (s : RSAState) : RSAState :=
  { s with pkey := false, signCtx := false, verifyCtx := false }

/-- The stage at which `RSABenchmark::generateKeys` stops. -/
inductive KeygenOutcome
  | ctxAllocFail
  | keygenInitFail
  | setBitsFail
  | keygenFail
  | ok
deriving DecidableEq

/-- `RSABenchmark::generateKeys`: `cleanup()` runs first; each failing stage
returns false with `pkey_` still null; only `EVP_PKEY_keygen` success
installs a fresh keypair. -/
def RSABenchmark.generateKeys (outcome : KeygenOutcome) (s : RSAState) :
    Bool × RSAState :=
  match outcome with
  | KeygenOutcome.ok => (true, { RSABenchmark.cleanup s with pkey := true })
  | _ => (false, RSABenchmark.cleanup s)

/-- `RSABenchmark::sign`.  `primSig msg` is the `EVP_DigestSign` pipeline:
`some` signature bytes when every stage succeeds, `none` otherwise. -/
def RSABenchmark.sign (primSig : List ℕ → Option (List ℕ)) (s : RSAState)
    (message : List ℕ) : List ℕ :=
  if s.pkey = false then []
  else
    match primSig message with
    | none => []
    | some sig => sig

/-- `RSABenchmark::verify`.  `primVer msg sig` is true when
`EVP_DigestVerify` returns 1. -/
def RSABenchmark.verify (primVer : List ℕ → List ℕ → Bool) (s : RSAState)
    (message sig : List ℕ) : Bool :=
  if s.pkey = false then false
  else primVer message sig

/-! ## Digest contexts (RSABenchmark.cpp, sign / verify initialisation) -/

/-- RSA padding modes relevant here. -/
inductive RsaPadding
  | pkcs1v15
  | pss
deriving DecidableEq

/-- Configuration of an `EVP_MD_CTX` after the init call. -/
structure MdCtxConfig where
  digest : String
  padding : RsaPadding
deriving DecidableEq

/-- Modelled from the spec: the OpenSSL `EVP_DigestSignInit` /
`EVP_DigestVerifyInit` calls are external code (spec §1 places the RSA
primitive out of scope).  With an RSA key and no subsequent
`EVP_PKEY_CTX_set_rsa_padding` call the context keeps OpenSSL's default RSA
padding, PKCS#1 v1.5 — spec §9: the initializer does not configure PSS
explicitly, so the scheme "may therefore be PKCS#1 v1.5 over SHA-256 in
practice". -/
def digestInitRsaDefault (md : String) : MdCtxConfig :=
  { digest := md, padding := RsaPadding.pkcs1v15 }

/-- The context built by `RSABenchmark::sign` (line 77): SHA-256 digest, no
explicit padding selection. -/
def RSABenchmark.signCtxConfig : MdCtxConfig := digestInitRsaDefault "SHA-256"

/-- The context built by `RSABenchmark::verify` (line 117): SHA-256 digest, no
explicit padding selection. -/
def RSABenchmark.verifyCtxConfig : MdCtxConfig := digestInitRsaDefault "SHA-256"

/-! ## Detailed analysis block (main.cpp lines 153-175) -/

/-- The conditional annotation used for the signing and verification rows:
`rsaAvg > dilAvg ? "slower" : "faster"`. -/
def ratioNote (rsaAvg dilAvg : ℚ) : String :=
  if rsaAvg > dilAvg then "slower" else "faster"

/-- The six RSA-vs-Dilithium speed annotations printed by the detailed
analysis block. -/
structure SpeedNotes where
  keyGen2048 : String
  keyGen3072 : String
  sign2048 : String
  sign3072 : String
  verify2048 : String
  verify3072 : String
deriving DecidableEq

/-- The annotations exactly as `runComprehensiveBenchmark` prints them: the
two key-generation lines carry the fixed text "slower"; the signing and
verification lines choose between "slower" and "faster" by comparing the two
average times. -/
def detailedAnalysisNotes (_dilKeyGen dilSign dilVerify _r2048KeyGen r2048Sign
    r2048Verify _r3072KeyGen r3072Sign r3072Verify : ℚ) : SpeedNotes :=
  { keyGen2048 := "slower"
  , keyGen3072 := "slower"
  , sign2048 := ratioNote r2048Sign dilSign
  , sign3072 := ratioNote r3072Sign dilSign
  , verify2048 := ratioNote r2048Verify dilVerify
  , verify3072 := ratioNote r3072Verify dilVerify }

/-! ## Claim theorems -/

/-- C1: for every sequence of n ≥ 1 latency samples gathered by
`Benchmark::run`, the `std_dev` field of the returned `Result` equals
`sqrt(Σ(xᵢ − mean)² / n)`, the population standard deviation dividing by `n`
rather than `n − 1`; in particular the three samples {1.0, 2.0, 3.0} ms
(durations 1000, 2000, 3000 µs) yield mean 2.0, min 1.0, max 3.0 and
stddev `sqrt(2/3)`. -/
theorem benchmark_stdDev_population (durations : List ℕ)
    (_h : 1 ≤ durations.length) :
    ((Benchmark.run durations).stdDev =
      Real.sqrt ((((sampleTimes durations).map
        (fun x => (x - (Benchmark.run durations).averageTime) ^ 2)).sum
          / (durations.length : ℚ) : ℚ) : ℝ)) ∧
    (Benchmark.run [1000, 2000, 3000]).averageTime = 2 ∧
    (Benchmark.run [1000, 2000, 3000]).minTime = 1 ∧
    (Benchmark.run [1000, 2000, 3000]).maxTime = 3 ∧
    (Benchmark.run [1000, 2000, 3000]).stdDev = Real.sqrt (2 / 3) := by
  refine ⟨?_, run_demo_avg, run_demo_min, run_demo_max, run_demo_std⟩
  simp only [Benchmark.run, calculateStdDev]
  rw [sumSquaredDiff_eq, sampleTimes_length]

/-- Witness for `benchmark_stdDev_population` at durations
[1000, 2000, 3000]. -/
theorem benchmark_stdDev_population_witness :
    1 ≤ ([1000, 2000, 3000] : List ℕ).length ∧
    (((Benchmark.run [1000, 2000, 3000]).stdDev =
      Real.sqrt ((((sampleTimes [1000, 2000, 3000]).map
        (fun x => (x - (Benchmark.run [1000, 2000, 3000]).averageTime) ^ 2)).sum
          / (([1000, 2000, 3000] : List ℕ).length : ℚ) : ℚ) : ℝ)) ∧
    (Benchmark.run [1000, 2000, 3000]).averageTime = 2 ∧
    (Benchmark.run [1000, 2000, 3000]).minTime = 1 ∧
    (Benchmark.run [1000, 2000, 3000]).maxTime = 3 ∧
    (Benchmark.run [1000, 2000, 3000]).stdDev = Real.sqrt (2 / 3)) :=
  ⟨by decide, benchmark_stdDev_population [1000, 2000, 3000] (by decide)⟩

/-- C2: for every run over n ≥ 1 recorded samples, the returned `Result`
satisfies `iterations = n`, `min_time ≤ average_time ≤ max_time` and
`std_dev ≥ 0`. -/
theorem benchmark_result_invariants (durations : List ℕ)
    (h : 1 ≤ durations.length) :
    (Benchmark.run durations).iterations = durations.length ∧
    (Benchmark.run durations).minTime ≤ (Benchmark.run durations).averageTime ∧
    (Benchmark.run durations).averageTime ≤ (Benchmark.run durations).maxTime ∧
    0 ≤ (Benchmark.run durations).stdDev := by
  have hne : sampleTimes durations ≠ [] := by
    intro hnil
    have hl := sampleTimes_length durations
    rw [hnil] at hl
    simp at hl
    omega
  refine ⟨rfl, ?_, ?_, Real.sqrt_nonneg _⟩
  · simpa only [Benchmark.run] using listMin_le_mean hne
  · simpa only [Benchmark.run] using mean_le_listMax hne

/-- Witness for `benchmark_result_invariants` at durations
[1000, 2000, 3000]. -/
theorem benchmark_result_invariants_witness :
    1 ≤ ([1000, 2000, 3000] : List ℕ).length ∧
    ((Benchmark.run [1000, 2000, 3000]).iterations
        = ([1000, 2000, 3000] : List ℕ).length ∧
     (Benchmark.run [1000, 2000, 3000]).minTime
        ≤ (Benchmark.run [1000, 2000, 3000]).averageTime ∧
     (Benchmark.run [1000, 2000, 3000]).averageTime
        ≤ (Benchmark.run [1000, 2000, 3000]).maxTime ∧
     0 ≤ (Benchmark.run [1000, 2000, 3000]).stdDev) :=
  ⟨by decide, benchmark_result_invariants [1000, 2000, 3000] (by decide)⟩

/-- C8: every latency sample is stored as floating-point milliseconds:
a `d`-microsecond duration is recorded as `d / 1000` ms (47 µs appears as
0.047 ms), and any latency of at least the clock's microsecond resolution
is recorded as a positive value, not rounded to zero. -/
theorem benchmark_records_millis (durations : List ℕ) (d : ℕ) (hd : 1 ≤ d) :
    sampleTimes durations = durations.map (fun k : ℕ => (k : ℚ) / 1000) ∧
    toMillis 47 = (0.047 : ℚ) ∧
    0 < toMillis d := by
  refine ⟨rfl, by norm_num [toMillis], ?_⟩
  have hd' : (0 : ℚ) < (d : ℚ) := by exact_mod_cast hd
  exact div_pos hd' (by norm_num)

/-- Witness for `benchmark_records_millis` at durations [47] and d = 47. -/
theorem benchmark_records_millis_witness :
    1 ≤ 47 ∧
    (sampleTimes [47] = ([47] : List ℕ).map (fun k : ℕ => (k : ℚ) / 1000) ∧
     toMillis 47 = (0.047 : ℚ) ∧
     0 < toMillis 47) :=
  ⟨by decide, benchmark_records_millis [47] 47 (by decide)⟩

/-- C5: on the lattice backend, `setPublicKey` with a buffer whose length is
not 1952 returns false and leaves the stored public key, stored secret key and
`hasKeys()` unchanged; `setSecretKey` with a buffer whose length is not 4032
likewise returns false and leaves that state unchanged. -/
theorem dilithium_setKey_size_mismatch (s : DilithiumState) (b b' : List ℕ)
    (hb : b.length ≠ 1952) (hb' : b'.length ≠ 4032) :
    DilithiumWrapper.setPublicKey s b = (false, s) ∧
    DilithiumWrapper.setSecretKey s b' = (false, s) := by
  constructor
  · simp [DilithiumWrapper.setPublicKey, DilithiumWrapper.PUBLIC_KEY_BYTES, hb]
  · simp [DilithiumWrapper.setSecretKey, DilithiumWrapper.SECRET_KEY_BYTES, hb']

/-- Witness for `dilithium_setKey_size_mismatch` on the freshly constructed
backend with buffers of length 0 and 1. -/
theorem dilithium_setKey_size_mismatch_witness :
    ([] : List ℕ).length ≠ 1952 ∧ ([0] : List ℕ).length ≠ 4032 ∧
    (DilithiumWrapper.setPublicKey DilithiumWrapper.init []
        = (false, DilithiumWrapper.init) ∧
     DilithiumWrapper.setSecretKey DilithiumWrapper.init [0]
        = (false, DilithiumWrapper.init)) :=
  ⟨by decide, by decide,
   dilithium_setKey_size_mismatch DilithiumWrapper.init [] [0]
     (by decide) (by decide)⟩

/-- C9: a successful `setSecretKey` with a 4032-byte buffer reports success
and sets `hasKeys()` to true on a backend on which `generateKeys` was never
called, while leaving the constructor's zero-filled public key in place (so
no matching public key is loaded); and `setPublicKey` never changes
`hasKeys()` on any state. -/
theorem dilithium_hasKeys_asymmetry (b p : List ℕ) (hb : b.length = 4032)
    (s : DilithiumState) :
    (DilithiumWrapper.setSecretKey DilithiumWrapper.init b).1 = true ∧
    DilithiumWrapper.hasKeys
      (DilithiumWrapper.setSecretKey DilithiumWrapper.init b).2 = true ∧
    (DilithiumWrapper.setSecretKey DilithiumWrapper.init b).2.publicKey
      = List.replicate 1952 0 ∧
    DilithiumWrapper.hasKeys (DilithiumWrapper.setPublicKey s p).2
      = DilithiumWrapper.hasKeys s := by
  have hcond : ¬ b.length ≠ DilithiumWrapper.SECRET_KEY_BYTES := by
    rw [hb]; exact fun hne => hne rfl
  rw [DilithiumWrapper.setSecretKey, if_neg hcond]
  refine ⟨rfl, rfl, rfl, ?_⟩
  by_cases hp : p.length = DilithiumWrapper.PUBLIC_KEY_BYTES
  · rw [DilithiumWrapper.setPublicKey, if_neg (fun hne => hne hp)]
    rfl
  · rw [DilithiumWrapper.setPublicKey, if_pos hp]

/-- Witness for `dilithium_hasKeys_asymmetry` with a 4032-byte zero buffer
and an empty public-key buffer on the fresh state. -/
theorem dilithium_hasKeys_asymmetry_witness :
    (List.replicate 4032 0).length = 4032 ∧
    ((DilithiumWrapper.setSecretKey DilithiumWrapper.init
        (List.replicate 4032 0)).1 = true ∧
     DilithiumWrapper.hasKeys
       (DilithiumWrapper.setSecretKey DilithiumWrapper.init
         (List.replicate 4032 0)).2 = true ∧
     (DilithiumWrapper.setSecretKey DilithiumWrapper.init
         (List.replicate 4032 0)).2.publicKey = List.replicate 1952 0 ∧
     DilithiumWrapper.hasKeys
       (DilithiumWrapper.setPublicKey DilithiumWrapper.init []).2
       = DilithiumWrapper.hasKeys DilithiumWrapper.init) :=
  ⟨List.length_replicate 4032 0,
   dilithium_hasKeys_asymmetry (List.replicate 4032 0) []
     (List.length_replicate 4032 0) DilithiumWrapper.init⟩

/-- C6: on a freshly constructed backend — the lattice wrapper, or the RSA
backend at any modulus size — with no keys generated or imported, `sign`
returns the empty byte sequence and `verify` returns false, for every message,
candidate signature and external primitive. -/
theorem no_keys_sign_verify (primSig : List ℕ → List ℕ → Option (List ℕ))
    (primVer : List ℕ → List ℕ → List ℕ → Bool)
    (rsaSig : List ℕ → Option (List ℕ)) (rsaVer : List ℕ → List ℕ → Bool)
    (keySize : ℕ) (m σ : List ℕ) :
    DilithiumWrapper.sign primSig DilithiumWrapper.init m = [] ∧
    DilithiumWrapper.verify primVer DilithiumWrapper.init m σ = false ∧
    RSABenchmark.sign rsaSig (RSABenchmark.init keySize) m = [] ∧
    RSABenchmark.verify rsaVer (RSABenchmark.init keySize) m σ = false := by
  refine ⟨?_, ?_, ?_, ?_⟩ <;>
    simp [DilithiumWrapper.sign, DilithiumWrapper.verify, DilithiumWrapper.init,
      RSABenchmark.sign, RSABenchmark.verify, RSABenchmark.init]

/-- C10: `RSABenchmark::generateKeys` runs `cleanup()` — freeing the keypair
and both contexts — before attempting generation, so when any stage fails the
call returns false and the backend is left in exactly the cleaned state with
`hasKeys() = false`: the prior keypair is not preserved across a failed
`generateKeys`. -/
theorem rsa_generateKeys_not_atomic (s : RSAState) (outcome : KeygenOutcome)
    (h : outcome ≠ KeygenOutcome.ok) :
    (RSABenchmark.generateKeys outcome s).1 = false ∧
    (RSABenchmark.generateKeys outcome s).2 = RSABenchmark.cleanup s ∧
    RSABenchmark.hasKeys (RSABenchmark.generateKeys outcome s).2 = false := by
  cases outcome with
  | ok => exact absurd rfl h
  | ctxAllocFail => exact ⟨rfl, rfl, rfl⟩
  | keygenInitFail => exact ⟨rfl, rfl, rfl⟩
  | setBitsFail => exact ⟨rfl, rfl, rfl⟩
  | keygenFail => exact ⟨rfl, rfl, rfl⟩

/-- Witness for `rsa_generateKeys_not_atomic`: a failed `EVP_PKEY_keygen`
stage on a backend that currently holds a keypair. -/
theorem rsa_generateKeys_not_atomic_witness :
    KeygenOutcome.keygenFail ≠ KeygenOutcome.ok ∧
    ((RSABenchmark.generateKeys KeygenOutcome.keygenFail
        { keySize := 2048, pkey := true, signCtx := false, verifyCtx := false }).1
        = false ∧
     (RSABenchmark.generateKeys KeygenOutcome.keygenFail
        { keySize := 2048, pkey := true, signCtx := false, verifyCtx := false }).2
        = RSABenchmark.cleanup
            { keySize := 2048, pkey := true, signCtx := false, verifyCtx := false } ∧
     RSABenchmark.hasKeys
       (RSABenchmark.generateKeys KeygenOutcome.keygenFail
         { keySize := 2048, pkey := true, signCtx := false, verifyCtx := false }).2
       = false) :=
  ⟨by decide,
   rsa_generateKeys_not_atomic
     { keySize := 2048, pkey := true, signCtx := false, verifyCtx := false }
     KeygenOutcome.keygenFail (by decide)⟩

lemma ratioNote_slower_iff (r d : ℚ) : ratioNote r d = "slower" ↔ r > d := by
  by_cases h : r > d
  · rw [ratioNote, if_pos h]; exact iff_of_true rfl h
  · rw [ratioNote, if_neg h]; exact iff_of_false (by decide) h

lemma ratioNote_faster_iff (r d : ℚ) : ratioNote r d = "faster" ↔ ¬ r > d := by
  by_cases h : r > d
  · rw [ratioNote, if_pos h]; exact iff_of_false (by decide) (not_not_intro h)
  · rw [ratioNote, if_neg h]; exact iff_of_true rfl h

/-- C3 counterexample: with an RSA-2048 key-generation average of 1 ms
against a Dilithium key-generation average of 2 ms — all other averages 1 ms —
the detailed analysis block still prints the fixed text "slower" for the
RSA-2048 key-generation ratio, although the RSA average does not exceed the
Dilithium average, so the key-generation lines are not annotated according to
the sign of the comparison. -/
theorem analysis_keygen_note_counterexample :
    (detailedAnalysisNotes 2 1 1 1 1 1 1 1 1).keyGen2048 = "slower" ∧
    ¬ ((1 : ℚ) > 2) :=
  ⟨rfl, by norm_num⟩

/-- C3 amended: in the detailed analysis block the signing and verification
ratio lines are annotated "slower" exactly when the RSA average time exceeds
the Dilithium average time and "faster" otherwise, for both RSA-2048 and
RSA-3072; the two key-generation lines instead carry the fixed annotation
"slower" regardless of the comparison. -/
theorem analysis_notes_amended (dkg ds dv k2 s2 v2 k3 s3 v3 : ℚ) :
    ((detailedAnalysisNotes dkg ds dv k2 s2 v2 k3 s3 v3).sign2048 = "slower"
        ↔ s2 > ds) ∧
    ((detailedAnalysisNotes dkg ds dv k2 s2 v2 k3 s3 v3).sign3072 = "slower"
        ↔ s3 > ds) ∧
    ((detailedAnalysisNotes dkg ds dv k2 s2 v2 k3 s3 v3).verify2048 = "slower"
        ↔ v2 > dv) ∧
    ((detailedAnalysisNotes dkg ds dv k2 s2 v2 k3 s3 v3).verify3072 = "slower"
        ↔ v3 > dv) ∧
    ((detailedAnalysisNotes dkg ds dv k2 s2 v2 k3 s3 v3).sign2048 = "faster"
        ↔ ¬ s2 > ds) ∧
    ((detailedAnalysisNotes dkg ds dv k2 s2 v2 k3 s3 v3).sign3072 = "faster"
        ↔ ¬ s3 > ds) ∧
    ((detailedAnalysisNotes dkg ds dv k2 s2 v2 k3 s3 v3).verify2048 = "faster"
        ↔ ¬ v2 > dv) ∧
    ((detailedAnalysisNotes dkg ds dv k2 s2 v2 k3 s3 v3).verify3072 = "faster"
        ↔ ¬ v3 > dv) ∧
    (detailedAnalysisNotes dkg ds dv k2 s2 v2 k3 s3 v3).keyGen2048 = "slower" ∧
    (detailedAnalysisNotes dkg ds dv k2 s2 v2 k3 s3 v3).keyGen3072 = "slower" :=
  ⟨ratioNote_slower_iff s2 ds, ratioNote_slower_iff s3 ds,
   ratioNote_slower_iff v2 dv, ratioNote_slower_iff v3 dv,
   ratioNote_faster_iff s2 ds, ratioNote_faster_iff s3 ds,
   ratioNote_faster_iff v2 dv, ratioNote_faster_iff v3 dv, rfl, rfl⟩

/-- C4 (code bug): the digest contexts built by `RSABenchmark::sign` and
`RSABenchmark::verify` use SHA-256 but, contrary to the claim and to the
code's own comments, are left at OpenSSL's default RSA padding — PKCS#1 v1.5,
not PSS — because no `EVP_PKEY_CTX_set_rsa_padding` call follows the init. -/
theorem rsa_digest_ctx_padding :
    RSABenchmark.signCtxConfig.digest = "SHA-256" ∧
    RSABenchmark.verifyCtxConfig.digest = "SHA-256" ∧
    RSABenchmark.signCtxConfig.padding = RsaPadding.pkcs1v15 ∧
    RSABenchmark.verifyCtxConfig.padding = RsaPadding.pkcs1v15 ∧
    RSABenchmark.signCtxConfig.padding ≠ RsaPadding.pss ∧
    RSABenchmark.verifyCtxConfig.padding ≠ RsaPadding.pss :=
  ⟨rfl, rfl, rfl, rfl, by decide, by decide⟩

/-- C7 counterexample: a second `generateKeys` call writing the fresh pair
(1952 one-bytes, 4032 one-bytes) performs no zero-write over the secret
buffer: its write trace does not zero the 4032-byte secret material, so the
operation does not itself zero the prior secret key. -/
theorem dilithium_generateKeys_no_wipe :
    ¬ wipesSecret
        (DilithiumWrapper.generateKeysWrites
          (List.replicate 1952 1) (List.replicate 4032 1)) 4032 := by
  decide

/-- C7 amended: every call to generate_keys discards the previously held
keypair — the lattice backend overwrites both fixed-size buffers in place
with the new pair, so no prior secret byte remains stored, but the operation
itself performs no zeroing: its only buffer writes are the two new-key
writes, and the zero-wipe of the secret buffer is performed by the
destructor; the RSA backend frees the prior keypair handle and contexts
before generating, the new state holding a keypair only on success. -/
theorem generateKeys_discards_amended (s : DilithiumState) (ret : Bool)
    (newPk newSk : List ℕ) (outcome : KeygenOutcome) (r : RSAState) :
    (DilithiumWrapper.generateKeys ret newPk newSk s).2.publicKey = newPk ∧
    (DilithiumWrapper.generateKeys ret newPk newSk s).2.secretKey = newSk ∧
    DilithiumWrapper.generateKeysWrites newPk newSk
      = [KeyWrite.pk newPk, KeyWrite.sk newSk] ∧
    wipesSecret (DilithiumWrapper.destructorWrites s) s.secretKey.length ∧
    (RSABenchmark.generateKeys outcome r).2.signCtx = false ∧
    (RSABenchmark.generateKeys outcome r).2.verifyCtx = false ∧
    ((RSABenchmark.generateKeys outcome r).2.pkey = true
      → outcome = KeygenOutcome.ok) := by
  refine ⟨?_, ?_, rfl, ?_, ?_, ?_, ?_⟩
  · cases ret <;> rfl
  · cases ret <;> rfl
  · exact List.mem_singleton.mpr rfl
  · cases outcome <;> rfl
  · cases outcome <;> rfl
  · cases outcome with
    | ok => exact fun _ => rfl
    | ctxAllocFail => exact fun hp => Bool.noConfusion hp
    | keygenInitFail => exact fun hp => Bool.noConfusion hp
    | setBitsFail => exact fun hp => Bool.noConfusion hp
    | keygenFail => exact fun hp => Bool.noConfusion hp

/-- Witness for `generateKeys_discards_amended` at a concrete regeneration: a
fresh wrapper regenerating to the pair ([1], [2]) and an RSA backend whose
keygen succeeds. -/
theorem generateKeys_discards_amended_witness :
    (DilithiumWrapper.generateKeys true [1] [2] DilithiumWrapper.init).2.publicKey = [1] ∧
    (DilithiumWrapper.generateKeys true [1] [2] DilithiumWrapper.init).2.secretKey = [2] ∧
    DilithiumWrapper.generateKeysWrites [1] [2]
      = [KeyWrite.pk [1], KeyWrite.sk [2]] ∧
    wipesSecret (DilithiumWrapper.destructorWrites DilithiumWrapper.init)
      DilithiumWrapper.init.secretKey.length ∧
    (RSABenchmark.generateKeys KeygenOutcome.ok (RSABenchmark.init 2048)).2.signCtx = false ∧
    (RSABenchmark.generateKeys KeygenOutcome.ok (RSABenchmark.init 2048)).2.verifyCtx = false ∧
    ((RSABenchmark.generateKeys KeygenOutcome.ok (RSABenchmark.init 2048)).2.pkey = true
      → KeygenOutcome.ok = KeygenOutcome.ok) :=
  generateKeys_discards_amended DilithiumWrapper.init true [1] [2]
    KeygenOutcome.ok (RSABenchmark.init 2048)
